import Mathlib

/-!
Verification of the pg-index-agents dashboard's background-job client logic.

The definitions below are a shallow embedding of the TypeScript source:
the `Job` record and its status enum (frontend/src/lib/api.ts), the
polling loops `pollJobStatus` (AgentPanel) and the inline polling loop of
`runAnalysis` (database detail page), the Run All sequential runner
`runAllAgentsSequentially` together with `startAgentJob`, the
`useJobPolling` hook's `fetchJob` step, the `useApi` cache (`execute` and
`clearApiCache`), and the running-job filters of the activity page and
`useJobPolling`.

Asynchronous behaviour is modelled by making the environment explicit:
the stream of job snapshots seen by successive polls is a function
`Nat → Job`, the stop flag read at the top of each Run All iteration is a
function `Nat → Bool`, and the combined start-plus-poll outcome of one
agent run is a function `String → Except String String`.
-/

namespace PgIndexAgents

/-- Job status values of the `Job` interface in the API client:
`'pending' | 'running' | 'completed' | 'failed' | 'cancelled'`. -/
inductive JobStatus where
  | pending
  | running
  | completed
  | failed
  | cancelled
deriving DecidableEq, Repr

/-- A status is terminal when it is `completed`, `failed` or `cancelled` —
the three statuses every polling loop in the client stops on. -/
def JobStatus.isTerminal : JobStatus → Bool
  | .completed => true
  | .failed => true
  | .cancelled => true
  | _ => false

/-- The numeric fields of `job.result_json` that `pollJobStatus` reads to
build its per-agent summary string (a projection of the
`Record<string, unknown>` payload to the keys the dashboard uses). -/
structure ResultJson where
  anomalies_count : Option Nat
  metrics_collected : Option Nat
  signals_detected : Option Nat
  proposals_created : Option Nat
  indexes_checked : Option Nat
  tasks_count : Option Nat
  recommendations_count : Option Nat
deriving DecidableEq, Repr

/-- The `Job` interface of the API client (api.ts). `string | null`
fields become `Option String`. -/
structure Job where
  id : String
  database_id : Nat
  agent : String
  status : JobStatus
  progress : Nat
  current_step : Option String
  total_steps : Nat
  started_at : Option String
  completed_at : Option String
  error : Option String
  result_json : Option ResultJson
  created_at : String
deriving DecidableEq, Repr

/-- JavaScript `e || dflt` for `e : string | null`: both `null` and the
empty string are falsy, so the default is used for either. -/
def jsOrString (e : Option String) (dflt : String) : String :=
  match e with
  | none => dflt
  | some s => if s = "" then dflt else s

/-- JavaScript `x || 0` for a numeric field read from `result_json`. -/
def orZero (x : Option Nat) : Nat :=
  x.getD 0

/-- The `switch (agentId)` inside the `completed` branch of
`pollJobStatus`, including the outer `if (job.result_json)` guard whose
else branch returns the plain string `'Completed'`. -/
def resultSummary (agentId : String) (r : Option ResultJson) : String :=
  match r with
  | none => "Completed"
  | some result =>
    if agentId = "explorer" then
      toString (orZero result.anomalies_count) ++ " anomalies found"
    else if agentId = "observer" then
      toString (orZero result.metrics_collected) ++ " metrics, "
        ++ toString (orZero result.signals_detected) ++ " signals"
    else if agentId = "architect" then
      toString (orZero result.proposals_created) ++ " proposals created"
    else if agentId = "gardener" then
      toString (orZero result.indexes_checked) ++ " indexes, "
        ++ toString (orZero result.tasks_count) ++ " tasks"
    else if agentId = "partitioner" then
      toString (orZero result.recommendations_count) ++ " recommendations"
    else "Completed"

/-- `pollInterval = 1000` (milliseconds) in `pollJobStatus` and in
`runAnalysis`. -/
def pollIntervalMs : Nat := 1000

/-- `maxAttempts = 600` in `pollJobStatus` and in `runAnalysis`. -/
def maxAttempts : Nat := 600

/-- The `for (let attempt = 0; attempt < maxAttempts; attempt++)` loop of
`pollJobStatus` in AgentPanel, with the stream of job snapshots made
explicit: `getJob n` is the record returned by the n-th `api.getJob`
call.  The result pairs the returned summary or thrown message with the
number of `getJob` calls performed.  Exhausting the fuel is the
post-loop `throw new Error('Job timed out')`. -/
def pollJobStatusFrom (getJob : Nat → Job) (agentId : String) :
    Nat → Nat → Except String String × Nat
  | 0, _ => (Except.error "Job timed out", 0)
  | fuel + 1, attempt =>
    if (getJob attempt).status = JobStatus.completed then
      (Except.ok (resultSummary agentId (getJob attempt).result_json), 1)
    else if (getJob attempt).status = JobStatus.failed then
      (Except.error (jsOrString (getJob attempt).error "Job failed"), 1)
    else if (getJob attempt).status = JobStatus.cancelled then
      (Except.error "Job cancelled", 1)
    else
      ((pollJobStatusFrom getJob agentId fuel (attempt + 1)).1,
       (pollJobStatusFrom getJob agentId fuel (attempt + 1)).2 + 1)

/-- `pollJobStatus(jobId, agentId)`: the loop run with `maxAttempts`
fuel from attempt 0. -/
def pollJobStatus (getJob : Nat → Job) (agentId : String) :
    Except String String × Nat :=
  pollJobStatusFrom getJob agentId maxAttempts 0

/-- The inline polling loop of `runAnalysis` on the database detail page:
`completed` breaks out of the loop, `failed` throws
`job.error || 'Analysis failed'`, `cancelled` throws
`'Analysis cancelled'`, and — unlike `pollJobStatus` — exhausting the
600 attempts simply leaves the loop, after which `runAnalysis` proceeds
to `fetchData()` with no error, so exhaustion is `Except.ok ()` exactly
like a completed job. -/
def runAnalysisPollFrom (getJob : Nat → Job) : Nat → Nat → Except String Unit
  | 0, _ => Except.ok ()
  | fuel + 1, attempt =>
    if (getJob attempt).status = JobStatus.completed then
      Except.ok ()
    else if (getJob attempt).status = JobStatus.failed then
      Except.error (jsOrString (getJob attempt).error "Analysis failed")
    else if (getJob attempt).status = JobStatus.cancelled then
      Except.error "Analysis cancelled"
    else
      runAnalysisPollFrom getJob fuel (attempt + 1)

/-- The polling phase of `runAnalysis`, from attempt 0 with 600 fuel. -/
def runAnalysisPoll (getJob : Nat → Job) : Except String Unit :=
  runAnalysisPollFrom getJob maxAttempts 0

/-- Per-agent UI state in AgentPanel:
`type AgentState = 'pending' | 'running' | 'success' | 'error'`. -/
inductive AgentState where
  | pending
  | running
  | success
  | error
deriving DecidableEq, Repr

/-- `interface AgentStatus { state: AgentState; result: string | null }`. -/
structure AgentStatus where
  state : AgentState
  result : Option String
deriving DecidableEq, Repr

/-- The `id` fields, in order, of the `agents` array the Run All loop
iterates over (each array entry also carries a name, description and
icon, which the loop never reads). -/
def agents : List String :=
  ["explorer", "observer", "architect", "gardener", "partitioner"]

/-- `updateAgentStatus(agentId, state, result)`: functional update of the
`Record<string, AgentStatus>` kept in React state (a missing key is
`none`). -/
def updateAgentStatus (m : String → Option AgentStatus) (agentId : String)
    (state : AgentState) (result : Option String) : String → Option AgentStatus :=
  fun k => if k = agentId then some ⟨state, result⟩ else m k

/-- The `initialStatus` object built at the top of
`runAllAgentsSequentially`: every agent id mapped to
`{ state: 'pending', result: null }`. -/
def initialStatus : String → Option AgentStatus :=
  agents.foldl (fun m a => updateAgentStatus m a AgentState.pending none)
    (fun _ => none)

/-- The background-run endpoints of the API client that a Run All step
could conceivably hit; `runAllAgentsBackground` is the five-step `all`
pipeline endpoint (`/analyze/all?background=true`), which exists on the
client but is what `startAgentJob` must never select. -/
inductive ApiRequest where
  | runExplorerBackground
  | runObserverBackground
  | runArchitectBackground
  | runGardenerBackground
  | runPartitionerBackground
  | runAllAgentsBackground
deriving DecidableEq, Repr

/-- `startAgentJob(agentId)`: the `switch (agentId)` that picks which
single-agent background endpoint to call, with
`default: throw new Error(`Unknown agent: ...`)`.  The value returned is
the request issued (the `job_id` in the HTTP response is opaque here). -/
def startAgentJob (agentId : String) : Except String ApiRequest :=
  if agentId = "explorer" then Except.ok ApiRequest.runExplorerBackground
  else if agentId = "observer" then Except.ok ApiRequest.runObserverBackground
  else if agentId = "architect" then Except.ok ApiRequest.runArchitectBackground
  else if agentId = "gardener" then Except.ok ApiRequest.runGardenerBackground
  else if agentId = "partitioner" then Except.ok ApiRequest.runPartitionerBackground
  else Except.error ("Unknown agent: " ++ agentId)

/-- Observable events of one `runAllAgentsSequentially` run: an agent's
job was started (status set to running and `startAgentJob` called), an
agent's job reached its try/catch outcome, or an agent was marked
`'Stopped by user'` without ever being started. -/
inductive RunEvent where
  | started (agentId : String)
  | finished (agentId : String) (outcome : Except String String)
  | stopped (agentId : String)
deriving Repr

/-- The `for (let j = i; j < agents.length; j++)` loop in the stop branch:
mark every remaining agent `('error', 'Stopped by user')`. -/
def markStopped : List String → (String → Option AgentStatus) →
    (String → Option AgentStatus)
  | [], m => m
  | a :: rest, m =>
    markStopped rest (updateAgentStatus m a AgentState.error (some "Stopped by user"))

/-- The try-block of one Run All step: `startAgentJob` followed — only if
it succeeded — by the polling of that job; `pollOutcome agentId` is the
result of `pollJobStatus(jobId, agentId)` for the job started for
`agentId`. -/
def agentRunOutcome (pollOutcome : String → Except String String)
    (agentId : String) : Except String String :=
  match startAgentJob agentId with
  | Except.error e => Except.error e
  | Except.ok _ => pollOutcome agentId

/-- The status write made after the try/catch of one Run All step:
success records the summary, a caught error records its message. -/
def recordOutcome (m : String → Option AgentStatus) (agentId : String) :
    Except String String → (String → Option AgentStatus)
  | Except.ok res => updateAgentStatus m agentId AgentState.success (some res)
  | Except.error e => updateAgentStatus m agentId AgentState.error (some e)

/-- The main `for (let i = 0; i < agents.length; i++)` loop of
`runAllAgentsSequentially`.  `stopAt i` is the value the loop reads from
`shouldStop` at the check performed before starting step `i`; when it is
true the remaining agents are marked stopped and the loop breaks.
Otherwise the agent is set to running, started and polled to its
terminal outcome (`agentRunOutcome`), the outcome is recorded, and the
loop continues with the next agent — also after a failure. -/
def runAllLoop (stopAt : Nat → Bool) (pollOutcome : String → Except String String) :
    List String → Nat → (String → Option AgentStatus) → List RunEvent →
    (String → Option AgentStatus) × List RunEvent
  | [], _, m, trace => (m, trace)
  | a :: rest, i, m, trace =>
    if stopAt i then
      (markStopped (a :: rest) m, trace ++ (a :: rest).map RunEvent.stopped)
    else
      runAllLoop stopAt pollOutcome rest (i + 1)
        (recordOutcome (updateAgentStatus m a AgentState.running none) a
          (agentRunOutcome pollOutcome a))
        (trace ++ [RunEvent.started a,
                   RunEvent.finished a (agentRunOutcome pollOutcome a)])

/-- `runAllAgentsSequentially`: reset every agent to pending, then run the
loop over the five agents from step 0 with an empty event history. -/
def runAllAgentsSequentially (stopAt : Nat → Bool)
    (pollOutcome : String → Except String String) :
    (String → Option AgentStatus) × List RunEvent :=
  runAllLoop stopAt pollOutcome agents 0 initialStatus []

/-- A trace has at-most-one-job-in-flight shape: every `started` is
immediately followed by the matching `finished` before anything else
happens. -/
def isSequentialTrace : List RunEvent → Bool
  | [] => true
  | RunEvent.started a :: RunEvent.finished b _ :: rest =>
    (a = b) && isSequentialTrace rest
  | RunEvent.stopped _ :: rest => isSequentialTrace rest
  | _ => false

/-- The background-run request issued for each agent the loop started:
`startAgentJob` determines the endpoint from the agent id. -/
def requestsIssued (trace : List RunEvent) : List ApiRequest :=
  trace.filterMap fun e =>
    match e with
    | RunEvent.started a => (startAgentJob a).toOption
    | _ => none

/-- `runningJobs` on the activity page:
`jobs.filter((j) => j.status === 'running' || j.status === 'pending')`. -/
def runningJobs (jobs : List Job) : List Job :=
  jobs.filter fun j =>
    decide (j.status = JobStatus.running) || decide (j.status = JobStatus.pending)

/-- The `isRunning` flag returned by `useJobPolling`:
`job?.status === 'running' || job?.status === 'pending'` for a
`Job | null`. -/
def isRunning (job : Option Job) : Bool :=
  match job with
  | some j =>
    decide (j.status = JobStatus.running) || decide (j.status = JobStatus.pending)
  | none => false

/-- Which of the hook's callbacks one `fetchJob` round invokes. -/
inductive Callback where
  | silent
  | complete (job : Job)
  | error (msg : String)
deriving Repr

/-- The externally visible effects of one `fetchJob` round in
`useJobPolling`. -/
structure FetchOutcome where
  setJob : Option Job
  stopsPolling : Bool
  callback : Callback
deriving Repr

/-- One round of `fetchJob` in `useJobPolling` (mounted case), applied to
the result of `api.getJob`: on success store the job, and if its status
is terminal stop polling and fire `onComplete` for `completed`,
`onError(jobData.error || 'Job failed')` for `failed`, and nothing for
`cancelled`; on a fetch error record the message, fire `onError` with it
and stop polling. -/
def fetchJobStep : Except String Job → FetchOutcome
  | Except.ok jobData =>
    { setJob := some jobData
      stopsPolling := jobData.status.isTerminal
      callback :=
        if jobData.status.isTerminal then
          if jobData.status = JobStatus.completed then
            Callback.complete jobData
          else if jobData.status = JobStatus.failed then
            Callback.error (jsOrString jobData.error "Job failed")
          else Callback.silent
        else Callback.silent }
  | Except.error e =>
    { setJob := none
      stopsPolling := true
      callback := Callback.error e }

/-- `DEFAULT_CACHE_TTL = 30000` milliseconds in useApi.ts. -/
def DEFAULT_CACHE_TTL : Nat := 30000

/-- The result of one `execute()` call of `useApi` (mounted case): the
value returned or the message thrown, the cache map afterwards, and
whether the underlying `apiCall` was invoked. -/
structure ExecOutcome (α : Type) where
  result : Except String α
  cache : String → Option (α × Nat)
  invokedApi : Bool

/-- The body of `execute` past the cache check: invoke `apiCall`; on
success store the data under `cacheKey` (when one is configured) with
the current timestamp and return it; on failure rethrow, leaving the
cache untouched. -/
def runApiCall {α : Type} (cache : String → Option (α × Nat))
    (cacheKey : Option String) (now : Nat) (apiCall : Except String α) :
    ExecOutcome α :=
  match apiCall with
  | Except.ok data =>
    { result := Except.ok data
      cache :=
        match cacheKey with
        | some key => fun k => if k = key then some (data, now) else cache k
        | none => cache
      invokedApi := true }
  | Except.error e =>
    { result := Except.error e, cache := cache, invokedApi := true }

/-- `execute()` of `useApi`: with a `cacheKey` configured, a cache entry
satisfying `Date.now() - cached.timestamp < cacheTTL` is returned
without invoking the API call; otherwise (no entry, or a stale one) the
call is made via `runApiCall`.  The timestamp comparison is over `Int`,
matching JavaScript number subtraction. -/
def executeModel {α : Type} (cache : String → Option (α × Nat))
    (cacheKey : Option String) (cacheTTL : Nat) (now : Nat)
    (apiCall : Except String α) : ExecOutcome α :=
  match cacheKey with
  | some key =>
    match cache key with
    | some (data, ts) =>
      if (now : Int) - (ts : Int) < (cacheTTL : Int) then
        { result := Except.ok data, cache := cache, invokedApi := false }
      else runApiCall cache cacheKey now apiCall
    | none => runApiCall cache cacheKey now apiCall
  | none => runApiCall cache cacheKey now apiCall

/-- `clearApiCache(key?)`: with a key, `cache.delete(key)`; without one,
`cache.clear()`. -/
def clearApiCache {α : Type} (cache : String → Option (α × Nat)) :
    Option String → (String → Option (α × Nat))
  | some key => fun k => if k = key then none else cache k
  | none => fun _ => none

/-- A job permanently in status `running` — the stream a poller sees when
the backend never finishes the job. -/
def alwaysRunningJob : Job :=
  { id := "job-running", database_id := 7, agent := "explorer",
    status := JobStatus.running, progress := 0, current_step := none,
    total_steps := 1, started_at := none, completed_at := none,
    error := none, result_json := none, created_at := "t0" }

/-! ## Helper lemmas about the polling loops -/

theorem notTerminal_iff (s : JobStatus) :
    s.isTerminal = false ↔
      s ≠ JobStatus.completed ∧ s ≠ JobStatus.failed ∧ s ≠ JobStatus.cancelled := by
  cases s <;> simp [JobStatus.isTerminal]

theorem pollJobStatusFrom_count_le (getJob : Nat → Job) (agentId : String) :
    ∀ (fuel attempt : Nat), (pollJobStatusFrom getJob agentId fuel attempt).2 ≤ fuel := by
  intro fuel
  induction fuel with
  | zero => intro attempt; exact Nat.le_refl 0
  | succ f ih =>
    intro attempt
    simp only [pollJobStatusFrom]
    split_ifs
    · exact Nat.succ_le_succ (Nat.zero_le f)
    · exact Nat.succ_le_succ (Nat.zero_le f)
    · exact Nat.succ_le_succ (Nat.zero_le f)
    · exact Nat.succ_le_succ (ih (attempt + 1))

theorem pollJobStatusFrom_notTerminal (getJob : Nat → Job) (agentId : String)
    (h : ∀ n, (getJob n).status.isTerminal = false) :
    ∀ (fuel attempt : Nat),
      pollJobStatusFrom getJob agentId fuel attempt
        = (Except.error "Job timed out", fuel) := by
  intro fuel
  induction fuel with
  | zero => intro attempt; rfl
  | succ f ih =>
    intro attempt
    have h' := (notTerminal_iff _).mp (h attempt)
    simp [pollJobStatusFrom, h'.1, h'.2.1, h'.2.2, ih (attempt + 1)]

theorem runAnalysisPollFrom_notTerminal (getJob : Nat → Job)
    (h : ∀ n, (getJob n).status.isTerminal = false) :
    ∀ (fuel attempt : Nat), runAnalysisPollFrom getJob fuel attempt = Except.ok () := by
  intro fuel
  induction fuel with
  | zero => intro attempt; rfl
  | succ f ih =>
    intro attempt
    have h' := (notTerminal_iff _).mp (h attempt)
    simp [runAnalysisPollFrom, h'.1, h'.2.1, h'.2.2, ih (attempt + 1)]

theorem pollJobStatusFrom_shift (getJob : Nat → Job) (agentId : String) :
    ∀ (k fuel attempt : Nat), k < fuel →
      (∀ n, n < k → (getJob (attempt + n)).status.isTerminal = false) →
      pollJobStatusFrom getJob agentId fuel attempt
        = ((pollJobStatusFrom getJob agentId (fuel - k) (attempt + k)).1,
           (pollJobStatusFrom getJob agentId (fuel - k) (attempt + k)).2 + k) := by
  intro k
  induction k with
  | zero =>
    intro fuel attempt _ _
    simp
  | succ k' ih =>
    intro fuel attempt hk hpre
    cases fuel with
    | zero => omega
    | succ f =>
      have h0 := (notTerminal_iff _).mp (by simpa using hpre 0 (Nat.succ_pos k'))
      have hpre' : ∀ n, n < k' →
          (getJob ((attempt + 1) + n)).status.isTerminal = false := by
        intro n hn
        have hgot := hpre (n + 1) (by omega)
        have harr : attempt + (n + 1) = (attempt + 1) + n := by omega
        rwa [harr] at hgot
      have hrec := ih f (attempt + 1) (by omega) hpre'
      have harith : attempt + (k' + 1) = (attempt + 1) + k' := by omega
      have hsub : (f + 1) - (k' + 1) = f - k' := by omega
      rw [hsub, harith]
      simp [pollJobStatusFrom, h0.1, h0.2.1, h0.2.2, hrec, Nat.add_assoc]

theorem runAnalysisPollFrom_shift (getJob : Nat → Job) :
    ∀ (k fuel attempt : Nat), k < fuel →
      (∀ n, n < k → (getJob (attempt + n)).status.isTerminal = false) →
      runAnalysisPollFrom getJob fuel attempt
        = runAnalysisPollFrom getJob (fuel - k) (attempt + k) := by
  intro k
  induction k with
  | zero =>
    intro fuel attempt _ _
    simp
  | succ k' ih =>
    intro fuel attempt hk hpre
    cases fuel with
    | zero => omega
    | succ f =>
      have h0 := (notTerminal_iff _).mp (by simpa using hpre 0 (Nat.succ_pos k'))
      have hpre' : ∀ n, n < k' →
          (getJob ((attempt + 1) + n)).status.isTerminal = false := by
        intro n hn
        have hgot := hpre (n + 1) (by omega)
        have harr : attempt + (n + 1) = (attempt + 1) + n := by omega
        rwa [harr] at hgot
      have hrec := ih f (attempt + 1) (by omega) hpre'
      have harith : attempt + (k' + 1) = (attempt + 1) + k' := by omega
      have hsub : (f + 1) - (k' + 1) = f - k' := by omega
      rw [hsub, harith]
      simp [runAnalysisPollFrom, h0.1, h0.2.1, h0.2.2, hrec]

theorem pollJobStatus_step_at (getJob : Nat → Job) (agentId : String) (k : Nat)
    (hk : k < maxAttempts)
    (hpre : ∀ n, n < k → (getJob n).status.isTerminal = false) :
    pollJobStatus getJob agentId
      = ((pollJobStatusFrom getJob agentId (maxAttempts - k) k).1,
         (pollJobStatusFrom getJob agentId (maxAttempts - k) k).2 + k) := by
  have hs := pollJobStatusFrom_shift getJob agentId k maxAttempts 0 hk
    (by intro n hn; simpa using hpre n hn)
  simpa [pollJobStatus] using hs

theorem runAnalysisPoll_step_at (getJob : Nat → Job) (k : Nat)
    (hk : k < maxAttempts)
    (hpre : ∀ n, n < k → (getJob n).status.isTerminal = false) :
    runAnalysisPoll getJob = runAnalysisPollFrom getJob (maxAttempts - k) k := by
  have hs := runAnalysisPollFrom_shift getJob k maxAttempts 0 hk
    (by intro n hn; simpa using hpre n hn)
  simpa [runAnalysisPoll] using hs

/-! ## C1 -/

/-- C1 (amended): both dashboard polling loops use the fixed constants of
1000 ms and 600 attempts, and `pollJobStatus` never performs more than
600 `getJob` calls.  On a job that never reaches a terminal status,
`pollJobStatus` performs exactly 600 polls and throws `'Job timed out'`,
while the `runAnalysis` loop on the database detail page performs its
600 polls and then stops polling without treating the job as timed out:
it falls through to `fetchData` with no error, indistinguishable from
success. -/
theorem polling_contract (getJob : Nat → Job) (agentId : String) :
    pollIntervalMs = 1000 ∧ maxAttempts = 600 ∧
    (pollJobStatus getJob agentId).2 ≤ maxAttempts ∧
    ((∀ n, (getJob n).status.isTerminal = false) →
      (pollJobStatus getJob agentId).1 = Except.error "Job timed out" ∧
      (pollJobStatus getJob agentId).2 = maxAttempts ∧
      runAnalysisPoll getJob = Except.ok ()) := by
  refine ⟨rfl, rfl, pollJobStatusFrom_count_le getJob agentId maxAttempts 0, ?_⟩
  intro h
  have h1 := pollJobStatusFrom_notTerminal getJob agentId h maxAttempts 0
  have h2 := runAnalysisPollFrom_notTerminal getJob h maxAttempts 0
  exact ⟨by simp [pollJobStatus, h1], by simp [pollJobStatus, h1], h2⟩

/-- C1 witness: on the always-running job stream, `pollJobStatus` times
out with `'Job timed out'` after exactly `maxAttempts` polls. -/
theorem polling_contract_witness :
    (pollJobStatus (fun _ => alwaysRunningJob) "explorer").1
        = Except.error "Job timed out" ∧
    (pollJobStatus (fun _ => alwaysRunningJob) "explorer").2 = maxAttempts :=
  ⟨((polling_contract (fun _ => alwaysRunningJob) "explorer").2.2.2 (fun _ => rfl)).1,
   ((polling_contract (fun _ => alwaysRunningJob) "explorer").2.2.2 (fun _ => rfl)).2.1⟩

/-- C1 counterexample: the claim says every dashboard polling client
treats the job as timed out after its 600 polls, but the `runAnalysis`
loop applied to a job that stays `running` forever finishes as
`Except.ok ()` — it raises no timeout (or any other) error and proceeds
exactly as for a completed job. -/
theorem runAnalysis_no_timeout :
    runAnalysisPoll (fun _ => alwaysRunningJob) = Except.ok () :=
  runAnalysisPollFrom_notTerminal (fun _ => alwaysRunningJob) (fun _ => rfl)
    maxAttempts 0

/-! ## Helper lemmas about the Run All loop -/

theorem markStopped_not_mem (l : List String) :
    ∀ (m : String → Option AgentStatus) (a : String), a ∉ l →
      markStopped l m a = m a := by
  induction l with
  | nil => intro m a _; rfl
  | cons b rest ih =>
    intro m a ha
    have h1 : a ∉ rest := fun h => ha (List.mem_cons_of_mem _ h)
    have h2 : a ≠ b := fun h => ha (by rw [h]; exact List.mem_cons_self b rest)
    simp [markStopped, ih _ a h1, updateAgentStatus, h2]

theorem markStopped_mem (l : List String) :
    ∀ (m : String → Option AgentStatus) (a : String), a ∈ l →
      markStopped l m a = some ⟨AgentState.error, some "Stopped by user"⟩ := by
  induction l with
  | nil => intro m a ha; cases ha
  | cons b rest ih =>
    intro m a ha
    by_cases hmem : a ∈ rest
    · exact ih _ a hmem
    · have hab : a = b := by
        rcases List.mem_cons.mp ha with h | h
        · exact h
        · exact absurd h hmem
      calc markStopped (b :: rest) m a
          = updateAgentStatus m b AgentState.error (some "Stopped by user") a :=
            markStopped_not_mem rest _ a hmem
        _ = some ⟨AgentState.error, some "Stopped by user"⟩ := by
            simp [updateAgentStatus, hab]

theorem runAllLoop_stop_observed (stopAt : Nat → Bool)
    (po : String → Except String String) :
    ∀ (l : List String) (k i : Nat) (m : String → Option AgentStatus)
      (trace : List RunEvent),
      l.Nodup →
      (∀ j j', j ≤ j' → stopAt j = true → stopAt j' = true) →
      k < l.length →
      stopAt (i + k) = true →
      (∀ b ∈ l, RunEvent.started b ∉ trace) →
      ∀ a ∈ l.drop k,
        (runAllLoop stopAt po l i m trace).1 a
            = some ⟨AgentState.error, some "Stopped by user"⟩ ∧
        RunEvent.started a ∉ (runAllLoop stopAt po l i m trace).2 := by
  intro l
  induction l with
  | nil =>
    intro k i m trace _ _ hk
    simp at hk
  | cons c rest ih =>
    intro k i m trace hnd hmono hk hstop htrace a ha
    by_cases hsi : stopAt i = true
    · have heq : runAllLoop stopAt po (c :: rest) i m trace
          = (markStopped (c :: rest) m,
             trace ++ (c :: rest).map RunEvent.stopped) := by
        simp [runAllLoop, hsi]
      rw [heq]
      have hmem : a ∈ c :: rest := List.drop_subset k (c :: rest) ha
      refine ⟨markStopped_mem _ _ a hmem, ?_⟩
      intro hmemE
      rcases List.mem_append.mp hmemE with h | h
      · exact htrace a hmem h
      · rcases List.mem_map.mp h with ⟨b, _, hb⟩
        exact RunEvent.noConfusion hb
    · have hsi' : stopAt i = false := by
        cases hx : stopAt i with
        | false => rfl
        | true => exact absurd hx hsi
      have heq : runAllLoop stopAt po (c :: rest) i m trace
          = runAllLoop stopAt po rest (i + 1)
              (recordOutcome (updateAgentStatus m c AgentState.running none) c
                (agentRunOutcome po c))
              (trace ++ [RunEvent.started c,
                         RunEvent.finished c (agentRunOutcome po c)]) := by
        simp [runAllLoop, hsi']
      rw [heq]
      cases k with
      | zero => exact absurd hstop hsi
      | succ k' =>
        have hnd' : rest.Nodup := (List.nodup_cons.mp hnd).2
        have hcnotin : c ∉ rest := (List.nodup_cons.mp hnd).1
        have hk' : k' < rest.length := by simpa using hk
        have hstop' : stopAt ((i + 1) + k') = true := by
          have harr : (i + 1) + k' = i + (k' + 1) := by omega
          rw [harr]; exact hstop
        have htrace' : ∀ b ∈ rest, RunEvent.started b ∉
            trace ++ [RunEvent.started c,
                      RunEvent.finished c (agentRunOutcome po c)] := by
          intro b hb hmemE
          rcases List.mem_append.mp hmemE with h | h
          · exact htrace b (List.mem_cons_of_mem _ hb) h
          · have hb_eq : b = c := by simpa using h
            exact hcnotin (hb_eq ▸ hb)
        have ha' : a ∈ rest.drop k' := by simpa using ha
        exact ih k' (i + 1) _ _ hnd' hmono hk' hstop' htrace' a ha'

/-! ## C3 -/

/-- C3 (confirmed): the stop flag is read before starting each Run All
step; if the read at check `k` (monotone once requested) observes the
stop, then every agent from position `k` on is resolved as
`('error', 'Stopped by user')` and its job is never started — no
`started` event for it appears in the run's history. -/
theorem stop_halts_remaining_agents (stopAt : Nat → Bool)
    (po : String → Except String String) (k : Nat)
    (hmono : ∀ j j', j ≤ j' → stopAt j = true → stopAt j' = true)
    (hk : k < agents.length) (hstop : stopAt k = true) :
    ∀ a ∈ agents.drop k,
      (runAllAgentsSequentially stopAt po).1 a
          = some ⟨AgentState.error, some "Stopped by user"⟩ ∧
      RunEvent.started a ∉ (runAllAgentsSequentially stopAt po).2 :=
  runAllLoop_stop_observed stopAt po agents k 0 initialStatus []
    (by decide) hmono hk (by simpa using hstop) (by simp)

/-- C3 witness: with a stop observed from step 2 on and every poll
succeeding, `gardener` (position 3) is marked stopped and never
started. -/
theorem stop_halts_remaining_agents_witness :
    (runAllAgentsSequentially (fun j => decide (2 ≤ j)) (fun _ => Except.ok "done")).1
        "gardener" = some ⟨AgentState.error, some "Stopped by user"⟩ ∧
    RunEvent.started "gardener" ∉
      (runAllAgentsSequentially (fun j => decide (2 ≤ j))
        (fun _ => Except.ok "done")).2 :=
  stop_halts_remaining_agents (fun j => decide (2 ≤ j)) (fun _ => Except.ok "done") 2
    (fun j j' hjj hj => by
      simp only [decide_eq_true_eq] at hj ⊢
      omega)
    (by decide) (by decide) "gardener" (by decide)

/-! ## C4 -/

/-- C4 (confirmed): with no stop requested, a Run All run produces exactly
this event history: explorer, observer, architect, gardener, partitioner
are started in that fixed order, each `started` immediately followed by
that same agent's terminal outcome before the next agent is started, and
no other agent ever appears. -/
theorem runAll_fixed_order (po : String → Except String String) :
    (runAllAgentsSequentially (fun _ => false) po).2 =
      [RunEvent.started "explorer",
       RunEvent.finished "explorer" (agentRunOutcome po "explorer"),
       RunEvent.started "observer",
       RunEvent.finished "observer" (agentRunOutcome po "observer"),
       RunEvent.started "architect",
       RunEvent.finished "architect" (agentRunOutcome po "architect"),
       RunEvent.started "gardener",
       RunEvent.finished "gardener" (agentRunOutcome po "gardener"),
       RunEvent.started "partitioner",
       RunEvent.finished "partitioner" (agentRunOutcome po "partitioner")] := rfl

/-! ## C2 -/

/-- C2 (confirmed): in a Run All run with no stop requested in which
exactly one agent `f` fails with message `msg` and every other agent
succeeds, the failing step records its error, every agent is still
started, and the four other agents end in `success` with their results
present. -/
theorem one_agent_failure_does_not_abort (f msg : String) (res : String → String)
    (hf : f ∈ agents) :
    ((runAllAgentsSequentially (fun _ => false)
        (fun a => if a = f then Except.error msg else Except.ok (res a))).1 f
      = some ⟨AgentState.error, some msg⟩) ∧
    (∀ a ∈ agents, a ≠ f →
      (runAllAgentsSequentially (fun _ => false)
          (fun a' => if a' = f then Except.error msg else Except.ok (res a'))).1 a
        = some ⟨AgentState.success, some (res a)⟩) ∧
    (∀ a ∈ agents, RunEvent.started a ∈
      (runAllAgentsSequentially (fun _ => false)
        (fun a' => if a' = f then Except.error msg else Except.ok (res a'))).2) := by
  fin_cases hf <;>
    refine ⟨?_, ?_, ?_⟩ <;>
      simp [runAllAgentsSequentially, runAllLoop, agents, initialStatus,
        recordOutcome, agentRunOutcome, startAgentJob, updateAgentStatus]

/-- C2 witness: `architect` failing with `'LLM timeout'` leaves the other
agents' successes in place. -/
theorem one_agent_failure_witness :
    ((runAllAgentsSequentially (fun _ => false)
        (fun a => if a = "architect" then Except.error "LLM timeout"
                  else Except.ok "ok")).1 "architect"
      = some ⟨AgentState.error, some "LLM timeout"⟩) ∧
    ((runAllAgentsSequentially (fun _ => false)
        (fun a => if a = "architect" then Except.error "LLM timeout"
                  else Except.ok "ok")).1 "explorer"
      = some ⟨AgentState.success, some "ok"⟩) :=
  ⟨(one_agent_failure_does_not_abort "architect" "LLM timeout" (fun _ => "ok")
      (by decide)).1,
   (one_agent_failure_does_not_abort "architect" "LLM timeout" (fun _ => "ok")
      (by decide)).2.1 "explorer" (by decide) (by decide)⟩

/-! ## C8 -/

/-- C8 (confirmed): a Run All run issues exactly the five single-agent
background requests in order — never `runAllAgentsBackground`, the
`all`-pipeline endpoint — its event history is strictly sequential (each
started job reaches its terminal outcome before the next is started, so
at most one job it started is ever in flight), and `startAgentJob`
throws `'Unknown agent: ...'` for any agent name outside the five. -/
theorem runAll_single_agent_requests (po : String → Except String String) :
    requestsIssued (runAllAgentsSequentially (fun _ => false) po).2 =
      [ApiRequest.runExplorerBackground, ApiRequest.runObserverBackground,
       ApiRequest.runArchitectBackground, ApiRequest.runGardenerBackground,
       ApiRequest.runPartitionerBackground] ∧
    isSequentialTrace (runAllAgentsSequentially (fun _ => false) po).2 = true ∧
    (∀ a, a ∉ agents → startAgentJob a = Except.error ("Unknown agent: " ++ a)) := by
  refine ⟨rfl, rfl, ?_⟩
  intro a ha
  have h1 : a ≠ "explorer" := fun h => ha (by rw [h]; decide)
  have h2 : a ≠ "observer" := fun h => ha (by rw [h]; decide)
  have h3 : a ≠ "architect" := fun h => ha (by rw [h]; decide)
  have h4 : a ≠ "gardener" := fun h => ha (by rw [h]; decide)
  have h5 : a ≠ "partitioner" := fun h => ha (by rw [h]; decide)
  simp [startAgentJob, h1, h2, h3, h4, h5]

/-- C8 witness: the requests issued by a concrete Run All run, and the
unknown-agent throw at the concrete name `'all'` (the pipeline name is
itself not a startable agent). -/
theorem runAll_single_agent_requests_witness :
    requestsIssued (runAllAgentsSequentially (fun _ => false)
        (fun _ => Except.ok "done")).2 =
      [ApiRequest.runExplorerBackground, ApiRequest.runObserverBackground,
       ApiRequest.runArchitectBackground, ApiRequest.runGardenerBackground,
       ApiRequest.runPartitionerBackground] ∧
    startAgentJob "all" = Except.error ("Unknown agent: " ++ "all") :=
  ⟨(runAll_single_agent_requests (fun _ => Except.ok "done")).1,
   (runAll_single_agent_requests (fun _ => Except.ok "done")).2.2 "all" (by decide)⟩

/-! ## Sample jobs used by witnesses and counterexamples -/

/-- A job that finished in status `completed`. -/
def completedJobEx : Job :=
  { id := "job-completed", database_id := 7, agent := "explorer",
    status := JobStatus.completed, progress := 100, current_step := none,
    total_steps := 1, started_at := some "t1", completed_at := some "t2",
    error := none, result_json := none, created_at := "t0" }

/-- A failed job carrying a non-empty error message. -/
def failedJobEx : Job :=
  { id := "job-failed", database_id := 7, agent := "explorer",
    status := JobStatus.failed, progress := 40, current_step := none,
    total_steps := 1, started_at := some "t1", completed_at := some "t2",
    error := some "boom", result_json := none, created_at := "t0" }

/-- A failed job whose `error` field is present but the empty string. -/
def failedEmptyErrorJob : Job :=
  { id := "job-failed-empty", database_id := 7, agent := "explorer",
    status := JobStatus.failed, progress := 40, current_step := none,
    total_steps := 1, started_at := some "t1", completed_at := some "t2",
    error := some "", result_json := none, created_at := "t0" }

/-- A failed job whose `error` field happens to be the cancellation text. -/
def failedWithCancelText : Job :=
  { id := "job-failed-cancel-text", database_id := 7, agent := "explorer",
    status := JobStatus.failed, progress := 40, current_step := none,
    total_steps := 1, started_at := some "t1", completed_at := some "t2",
    error := some "Job cancelled", result_json := none, created_at := "t0" }

/-- A cancelled job (its `error` field is ignored by the pollers). -/
def cancelledJobEx : Job :=
  { id := "job-cancelled", database_id := 7, agent := "explorer",
    status := JobStatus.cancelled, progress := 40, current_step := none,
    total_steps := 1, started_at := some "t1", completed_at := some "t2",
    error := some "whatever the backend stored", result_json := none,
    created_at := "t0" }

/-! ## C5 -/

/-- C5 (confirmed): for every list of jobs, the activity page's
`runningJobs` filter contains a job exactly when it is in the list with
status `pending` or `running`; the hook's `isRunning` flag holds exactly
for those two statuses; and no job whose status is terminal is ever in
the running set. -/
theorem running_jobs_characterization (jobs : List Job) (j : Job) :
    (j ∈ runningJobs jobs ↔
      j ∈ jobs ∧ (j.status = JobStatus.pending ∨ j.status = JobStatus.running)) ∧
    (isRunning (some j) = true ↔
      (j.status = JobStatus.pending ∨ j.status = JobStatus.running)) ∧
    (j.status.isTerminal = true → j ∉ runningJobs jobs) := by
  refine ⟨?_, ?_, ?_⟩
  · simp [runningJobs, List.mem_filter, or_comm]
  · simp [isRunning, or_comm]
  · intro ht hmem
    have h := (List.mem_filter.mp hmem).2
    rw [Bool.or_eq_true, decide_eq_true_eq, decide_eq_true_eq] at h
    rcases h with h | h <;> rw [h] at ht <;> simp [JobStatus.isTerminal] at ht

/-- C5 witness: a completed job is not counted as running. -/
theorem running_jobs_witness :
    completedJobEx ∉ runningJobs [completedJobEx] :=
  (running_jobs_characterization [completedJobEx] completedJobEx).2.2 rfl

/-! ## C6 -/

/-- C6 (amended): when polling first observes `failed` at poll `k`, the
message thrown is `job.error || 'Job failed'`: it equals the job's error
field whenever that field is a non-empty string, and the generic
`'Job failed'` text is used when the field is absent or the empty string
(both falsy in JavaScript). -/
theorem failed_error_reporting (getJob : Nat → Job) (agentId : String) (k : Nat)
    (hk : k < maxAttempts)
    (hpre : ∀ n, n < k → (getJob n).status.isTerminal = false)
    (hf : (getJob k).status = JobStatus.failed) :
    (pollJobStatus getJob agentId).1
        = Except.error (jsOrString (getJob k).error "Job failed") ∧
    (∀ s, (getJob k).error = some s → s ≠ "" →
      (pollJobStatus getJob agentId).1 = Except.error s) ∧
    (((getJob k).error = none ∨ (getJob k).error = some "") →
      (pollJobStatus getJob agentId).1 = Except.error "Job failed") := by
  have hmain : (pollJobStatus getJob agentId).1
      = Except.error (jsOrString (getJob k).error "Job failed") := by
    rw [pollJobStatus_step_at getJob agentId k hk hpre]
    obtain ⟨f, hfu⟩ : ∃ f, maxAttempts - k = f + 1 := ⟨maxAttempts - k - 1, by omega⟩
    rw [hfu]
    simp [pollJobStatusFrom, hf]
  refine ⟨hmain, ?_, ?_⟩
  · intro s hs hne
    rw [hmain, hs]
    simp [jsOrString, hne]
  · intro hcase
    rcases hcase with h | h <;> rw [hmain, h] <;> simp [jsOrString]

/-- C6 witness: a failed job with error `'boom'` is reported as
`'boom'`. -/
theorem failed_error_reporting_witness :
    (pollJobStatus (fun _ => failedJobEx) "explorer").1 = Except.error "boom" :=
  (failed_error_reporting (fun _ => failedJobEx) "explorer" 0 (by decide)
    (fun n hn => absurd hn (Nat.not_lt_zero n)) rfl).2.1 "boom" rfl (by decide)

/-- C6 counterexample: the claim says the generic `'Job failed'` text is
used only when the error field is absent, but a failed job whose error
field is present and equal to the empty string is also reported with the
generic text, because JavaScript `||` treats the empty string as
falsy. -/
theorem failed_empty_error_generic :
    failedEmptyErrorJob.error = some "" ∧
    (pollJobStatus (fun _ => failedEmptyErrorJob) "explorer").1
        = Except.error "Job failed" :=
  ⟨rfl, rfl⟩

/-! ## C7 -/

/-- C7 (amended): when polling first observes `cancelled` at poll `k`,
`pollJobStatus` throws exactly the fixed text `'Job cancelled'` and the
`runAnalysis` loop exactly `'Analysis cancelled'` — never the job's
`error` field.  (The marker is nevertheless not distinct from every
failed job's message: a failed job whose error field equals the fixed
text produces the identical message, see the counterexample.) -/
theorem cancelled_fixed_marker (getJob : Nat → Job) (agentId : String) (k : Nat)
    (hk : k < maxAttempts)
    (hpre : ∀ n, n < k → (getJob n).status.isTerminal = false)
    (hc : (getJob k).status = JobStatus.cancelled) :
    (pollJobStatus getJob agentId).1 = Except.error "Job cancelled" ∧
    runAnalysisPoll getJob = Except.error "Analysis cancelled" := by
  obtain ⟨f, hfu⟩ : ∃ f, maxAttempts - k = f + 1 := ⟨maxAttempts - k - 1, by omega⟩
  constructor
  · rw [pollJobStatus_step_at getJob agentId k hk hpre, hfu]
    simp [pollJobStatusFrom, hc]
  · rw [runAnalysisPoll_step_at getJob k hk hpre, hfu]
    simp [runAnalysisPollFrom, hc]

/-- C7 witness: a cancelled job is reported with the fixed texts, not
with its stored error field. -/
theorem cancelled_fixed_marker_witness :
    (pollJobStatus (fun _ => cancelledJobEx) "observer").1
        = Except.error "Job cancelled" ∧
    runAnalysisPoll (fun _ => cancelledJobEx) = Except.error "Analysis cancelled" :=
  cancelled_fixed_marker (fun _ => cancelledJobEx) "observer" 0 (by decide)
    (fun n hn => absurd hn (Nat.not_lt_zero n)) rfl

/-- C7 counterexample: the claim says the cancellation marker is distinct
from any failed job's message, so callers can always distinguish
cancellation from failure — but a FAILED job whose error field is the
string `'Job cancelled'` is reported with exactly the same message as a
genuinely cancelled job. -/
theorem cancelled_marker_collision :
    failedWithCancelText.status = JobStatus.failed ∧
    (pollJobStatus (fun _ => failedWithCancelText) "explorer").1
        = Except.error "Job cancelled" ∧
    (pollJobStatus (fun _ => cancelledJobEx) "explorer").1
        = Except.error "Job cancelled" :=
  ⟨rfl, rfl, rfl⟩

/-! ## C9 -/

/-- C9 (confirmed): a `fetchJob` round of `useJobPolling` that observes a
cancelled job stops polling and invokes no callback; `onComplete` is
invoked exactly when the observed status is `completed`, `onError`
exactly when it is `failed` or the fetch itself threw (in which case the
fetch error message is passed and polling stops). -/
theorem useJobPolling_cancelled_silent (j : Job) (e : String) :
    (j.status = JobStatus.cancelled →
      (fetchJobStep (Except.ok j)).stopsPolling = true ∧
      (fetchJobStep (Except.ok j)).callback = Callback.silent) ∧
    (∀ j', (fetchJobStep (Except.ok j)).callback = Callback.complete j' →
      j.status = JobStatus.completed) ∧
    (∀ m, (fetchJobStep (Except.ok j)).callback = Callback.error m →
      j.status = JobStatus.failed) ∧
    (fetchJobStep (Except.error e)).callback = Callback.error e ∧
    (fetchJobStep (Except.error e)).stopsPolling = true := by
  refine ⟨?_, ?_, ?_, rfl, rfl⟩
  · intro hc
    refine ⟨?_, ?_⟩ <;> simp [fetchJobStep, hc, JobStatus.isTerminal]
  · intro j' hcb
    cases hs : j.status <;>
      simp [fetchJobStep, hs, JobStatus.isTerminal] at hcb ⊢
  · intro msg hcb
    cases hs : j.status <;>
      simp [fetchJobStep, hs, JobStatus.isTerminal] at hcb ⊢

/-- C9 witness: a cancelled job ends the hook silently. -/
theorem useJobPolling_cancelled_silent_witness :
    (fetchJobStep (Except.ok cancelledJobEx)).stopsPolling = true ∧
    (fetchJobStep (Except.ok cancelledJobEx)).callback = Callback.silent :=
  (useJobPolling_cancelled_silent cancelledJobEx "network down").1 rfl

/-! ## C10 -/

/-- C10 (confirmed): with a `cacheKey` configured, `execute` returns the
cached value without invoking the API call whenever the entry is younger
than `cacheTTL` (default 30000 ms); on a miss — no entry or a stale
one — it invokes the call and, on success, stores the result under the
key with the current timestamp, leaving other keys unchanged; and
`clearApiCache(key)` removes exactly that entry while `clearApiCache()`
empties the cache. -/
theorem useApi_cache_contract {α : Type} (cache : String → Option (α × Nat))
    (key : String) (ttl now : Nat) (call : Except String α) :
    (∀ data ts, cache key = some (data, ts) →
      (now : Int) - (ts : Int) < (ttl : Int) →
      executeModel cache (some key) ttl now call =
        ⟨Except.ok data, cache, false⟩) ∧
    (∀ data, call = Except.ok data →
      (cache key = none ∨
        ∀ d0 ts, cache key = some (d0, ts) →
          ¬((now : Int) - (ts : Int) < (ttl : Int))) →
      (executeModel cache (some key) ttl now call).invokedApi = true ∧
      (executeModel cache (some key) ttl now call).cache key = some (data, now) ∧
      (∀ k, k ≠ key →
        (executeModel cache (some key) ttl now call).cache k = cache k)) ∧
    (clearApiCache cache (some key) key = none ∧
      ∀ k, k ≠ key → clearApiCache cache (some key) k = cache k) ∧
    (∀ k, clearApiCache cache none k = none) ∧
    DEFAULT_CACHE_TTL = 30000 := by
  refine ⟨?_, ?_, ⟨by simp [clearApiCache], ?_⟩, fun k => rfl, rfl⟩
  · intro data ts hentry hfresh
    simp [executeModel, hentry, hfresh]
  · intro data hcall hmiss
    have hrun : executeModel cache (some key) ttl now call
        = runApiCall cache (some key) now call := by
      rcases hmiss with h | h
      · simp [executeModel, h]
      · cases hcache : cache key with
        | none => simp [executeModel, hcache]
        | some p =>
          obtain ⟨d0, ts⟩ := p
          simp [executeModel, hcache, h d0 ts hcache]
    rw [hrun, hcall]
    exact ⟨rfl, by simp [runApiCall], fun k hkk => by simp [runApiCall, hkk]⟩
  · intro k hkk
    simp [clearApiCache, hkk]

/-- A concrete cache with one entry for `useApi_cache_contract`. -/
def cacheEx : String → Option (Nat × Nat) :=
  fun k => if k = "jobs" then some (42, 100) else none

/-- C10 witness: a fresh entry is served from the cache without invoking
the API call, and deleting its key removes it. -/
theorem useApi_cache_contract_witness :
    executeModel cacheEx (some "jobs") 30000 200 (Except.ok 7)
        = ⟨Except.ok 42, cacheEx, false⟩ ∧
    clearApiCache cacheEx (some "jobs") "jobs" = none :=
  ⟨(useApi_cache_contract cacheEx "jobs" 30000 200 (Except.ok 7)).1 42 100 rfl
      (by decide),
   (useApi_cache_contract cacheEx "jobs" 30000 200 (Except.ok 7)).2.2.1.1⟩

end PgIndexAgents
